import Mathlib

/-!
# Verification of the RTRWH-AR rainwater-harvesting calculation engine

Shallow embedding of the `CalculationEngine` class (city resolution,
rainwater potential, household demand, storage-tank sizing, recharge-system
sizing, cost analysis, feasibility scoring and the `calculate`
orchestrator).  JavaScript numbers are modelled as exact rationals `ℚ`
(integral results of `Math.round` as `ℤ`); the cylindrical tank diameter,
which the source computes with `Math.sqrt` and `Math.PI`, is modelled in
`ℝ`.  Strings are modelled as `List Char`.
-/

namespace RTRWH

/-- JavaScript `Math.round`: round half toward positive infinity. -/
def jsRound (q : ℚ) : ℤ := ⌊q + 1/2⌋

/-- JavaScript `Number(x.toFixed(1))`: round to one decimal place,
ties away from zero picking the larger numerator (for the nonnegative
values occurring here this is `⌊10·x + 1/2⌋ / 10`). -/
noncomputable def toFixed1 (x : ℝ) : ℝ := ((⌊x * 10 + 1/2⌋ : ℤ) : ℝ) / 10

/-- Exact integer ceiling of the square root of a rational, used to embed
`Math.ceil(Math.sqrt(q))` executably.  Characterised against
`⌈Real.sqrt q⌉` in `ratCeilSqrt_eq` below. -/
def ratCeilSqrt (q : ℚ) : ℤ :=
  if q ≤ 0 then 0
  else
    let s : ℤ := (Nat.sqrt ⌈q⌉.toNat : ℤ)
    if q ≤ (s : ℚ) ^ 2 then s else s + 1

/-- Lowercasing of a JavaScript string (`toLowerCase`), ASCII model. -/
def lowerStr (s : List Char) : List Char := s.map Char.toLower

/-- Roof material enumeration from the input schema. -/
inductive RoofType
  | RCC
  | GI
  | Asbestos
  | Tiles
  deriving DecidableEq, Repr

/-- Surrounding-environment enumeration from the input schema. -/
inductive Environment
  | Residential
  | Industrial
  | Agricultural
  deriving DecidableEq, Repr

/-- Usage-purpose enumeration from the input schema. -/
inductive Purpose
  | Domestic
  | Irrigation
  | Industrial
  deriving DecidableEq, Repr

/-- Soil-type enumeration from the input schema. -/
inductive SoilType
  | Sandy
  | Loamy
  | Clayey
  deriving DecidableEq, Repr

/-- Budget-tier enumeration from the input schema. -/
inductive Budget
  | Low
  | Medium
  | High
  deriving DecidableEq, Repr

/-- The calculation mode passed to `calculate`. -/
inductive CalcType
  | rainwater
  | recharge
  deriving DecidableEq, Repr, BEq

/-- Feasibility level of the result record. -/
inductive FeasibilityLevel
  | High
  | Medium
  | Low
  deriving DecidableEq, Repr

/-- The validated user-input record (`UserInput` of the shared schema). -/
structure UserInput where
  name : List Char
  location : List Char
  pincode : List Char
  roofArea : ℚ
  roofType : RoofType
  environment : Environment
  birdNesting : Bool
  dwellers : ℚ
  purpose : Purpose
  hasOpenSpace : Bool
  openSpaceArea : Option ℚ
  groundwaterDepth : ℚ
  soilType : SoilType
  budget : Budget

/-- A static city-climate record (`CityData` of the shared schema; the
aquifer-type and region tags are never read by the engine). -/
structure CityData where
  city : List Char
  state : List Char
  pincode : List Char
  monthlyRainfall : List ℚ
  annualRainfall : ℚ
  groundwaterDepth : ℚ

/-- Per-roof-type runoff coefficients of the static coefficient table. -/
structure RunoffCoefficients where
  RCC : ℚ
  GI : ℚ
  Asbestos : ℚ
  Tiles : ℚ

/-- Lookup `coefficients.runoffCoefficients[roofType]`. -/
def RunoffCoefficients.get (r : RunoffCoefficients) : RoofType → ℚ
  | .RCC => r.RCC
  | .GI => r.GI
  | .Asbestos => r.Asbestos
  | .Tiles => r.Tiles

/-- Per-soil-type infiltration rates (mm/hr) of the static coefficient table. -/
structure InfiltrationRates where
  Sandy : ℚ
  Loamy : ℚ
  Clayey : ℚ

/-- Lookup `coefficients.infiltrationRates[soilType]`. -/
def InfiltrationRates.get (r : InfiltrationRates) : SoilType → ℚ
  | .Sandy => r.Sandy
  | .Loamy => r.Loamy
  | .Clayey => r.Clayey

/-- Budget-tier multipliers of the static coefficient table. -/
structure BudgetMultipliers where
  Low : ℚ
  Medium : ℚ
  High : ℚ

/-- Cost factors of the static coefficient table. -/
structure CostFactors where
  baseCostPerSqm : ℚ
  budgetMultipliers : BudgetMultipliers

/-- Water-rate constants of the static coefficient table. -/
structure WaterRates where
  municipalRate : ℚ
  domesticConsumption : ℚ

/-- The static coefficient table (`Coefficients` of the shared schema).
The concrete JSON values are external data, so the table is kept abstract
and passed as a parameter. -/
structure Coefficients where
  runoffCoefficients : RunoffCoefficients
  infiltrationRates : InfiltrationRates
  costFactors : CostFactors
  waterRates : WaterRates

/-- `city.pincode.startsWith(pincode.substring(0, 3))`. -/
def pincodeMatches (pincode : List Char) (c : CityData) : Bool :=
  List.isPrefixOf (pincode.take 3) c.pincode

/-- JavaScript `a.includes(b)`: `b` occurs as a contiguous substring of `a`. -/
def jsIncludes (a b : List Char) : Bool := decide (List.IsInfix b a)

/-- The fuzzy name predicate of `findCityData`: the lowered location is a
substring of the lowered city name, or conversely, or it is a substring of
the lowered state name. -/
def nameMatches (location : List Char) (c : CityData) : Bool :=
  jsIncludes (lowerStr c.city) (lowerStr location) ||
  jsIncludes (lowerStr location) (lowerStr c.city) ||
  jsIncludes (lowerStr c.state) (lowerStr location)

/-- `city.city === 'Delhi'`. -/
def isDelhiCity (c : CityData) : Bool :=
  c.city == ['D', 'e', 'l', 'h', 'i']

/-- `CalculationEngine.findCityData`: pincode-prefix match, else fuzzy name
match, else the Delhi fallback, else the first table entry (`cities[0]`,
which is `undefined`, i.e. `none`, only for an empty table). -/
def findCityData (cities : List CityData) (location pincode : List Char) :
    Option CityData :=
  match cities.find? (pincodeMatches pincode) with
  | some c => some c
  | none =>
    match cities.find? (nameMatches location) with
    | some c => some c
    | none =>
      match cities.find? isDelhiCity with
      | some c => some c
      | none => cities.head?

/-- Result of `calculateRainwaterPotential`. -/
structure RainPotential where
  annual : ℤ
  monthly : List ℤ

/-- `CalculationEngine.calculateRainwaterPotential`: per-month
`Math.round(roofArea * rainfall * runoffCoeff)`, annual value accumulated
with `reduce((sum, month) => sum + month, 0)`. -/
def calculateRainwaterPotential (co : Coefficients) (userInput : UserInput)
    (cityData : CityData) : RainPotential :=
  let runoffCoeff := co.runoffCoefficients.get userInput.roofType
  let monthlyPotential := cityData.monthlyRainfall.map (fun rainfall =>
    jsRound (userInput.roofArea * rainfall * runoffCoeff))
  { annual := monthlyPotential.foldl (· + ·) 0, monthly := monthlyPotential }

/-- `CalculationEngine.calculateHouseholdDemand`: dwellers × daily
consumption × 365 × purpose factor (1.0 Domestic, 1.5 Irrigation,
2.0 Industrial), rounded. -/
def calculateHouseholdDemand (co : Coefficients) (userInput : UserInput) : ℤ :=
  let dailyConsumption := co.waterRates.domesticConsumption
  let adjustmentFactor : ℚ :=
    match userInput.purpose with
    | .Domestic => 1
    | .Irrigation => 1.5
    | .Industrial => 2
  jsRound (userInput.dwellers * dailyConsumption * 365 * adjustmentFactor)

/-- Cylindrical tank dimensions in the result record. -/
structure TankDimensions where
  diameter : ℝ
  height : ℝ

/-- Result of `calculateStorageTank`. -/
structure TankResult where
  capacity : ℤ
  dimensions : TankDimensions

/-- `CalculationEngine.calculateStorageTank`: capacity is the minimum of
35 days of demand, 20 % of annual potential and 15000, floored afterwards
at 2000; the diameter is computed from the un-floored minimum
(`tankCapacity`), not from the returned capacity. The `monthlyPotential`
argument is accepted but never read, as in the source. -/
noncomputable def calculateStorageTank (rainwaterPotential : ℚ)
    (_monthlyPotential : List ℤ) (householdDemand : ℚ) : TankResult :=
  let demandBasedCapacity := jsRound (householdDemand / 365 * 35)
  let potentialBasedCapacity := jsRound (rainwaterPotential * 0.2)
  let tankCapacity := min (min demandBasedCapacity potentialBasedCapacity) 15000
  let tankHeight : ℝ := 2
  let tankVolume : ℝ := (tankCapacity : ℝ) / 1000
  let tankDiameter := Real.sqrt (tankVolume * 4 / (Real.pi * tankHeight))
  { capacity := max tankCapacity 2000,
    dimensions := { diameter := toFixed1 tankDiameter, height := tankHeight } }

/-- Recharge-pit dimensions in the result record. -/
structure PitDimensions where
  length : ℚ
  width : ℚ
  depth : ℚ
  deriving DecidableEq, Repr

/-- Result of `calculateRechargeSystem`. -/
structure RechargeResult where
  rechargeVolume : ℤ
  pitDimensions : PitDimensions
  deriving DecidableEq, Repr

/-- `CalculationEngine.calculateRechargeSystem`: recharge volume from a
soil factor (0.7 clayey default, 0.9 sandy, 0.8 loamy); pit side from the
larger of the infiltration-derived minimum area (floored at 9 m²) and the
storage-based area, ceiling square root, floored at 3 m; depth
`min(4, max(2, groundwaterDepth * 0.3))`.  The city-data argument is
accepted but never read, as in the source. -/
def calculateRechargeSystem (co : Coefficients) (userInput : UserInput)
    (rainwaterPotential : ℚ) (_cityData : CityData) : RechargeResult :=
  let infiltrationRate := co.infiltrationRates.get userInput.soilType
  let rechargeFactor : ℚ :=
    match userInput.soilType with
    | .Clayey => 0.7
    | .Sandy => 0.9
    | .Loamy => 0.8
  let rechargeVolume := jsRound (rainwaterPotential / 1000 * rechargeFactor)
  let dailyInflowRate := rainwaterPotential / 120
  let operatingHours : ℚ := 8
  let infiltrationRateMs := infiltrationRate / 1000
  let minPitArea :=
    max 9 (dailyInflowRate / (infiltrationRateMs * operatingHours * 1000))
  let maxDepth := min 4 (max 2 (userInput.groundwaterDepth * 0.3))
  let storageBasedArea := (rechargeVolume : ℚ) * 1.2 / maxDepth
  let requiredArea := max minPitArea storageBasedArea
  let pitSide := ratCeilSqrt requiredArea
  { rechargeVolume := rechargeVolume,
    pitDimensions :=
      { length := max (pitSide : ℚ) 3,
        width := max (pitSide : ℚ) 3,
        depth := maxDepth } }

/-- Three budget tiers of the system cost. -/
structure SystemCost where
  low : ℤ
  medium : ℤ
  high : ℤ
  deriving DecidableEq, Repr

/-- Result of `calculateCosts`. -/
structure CostResult where
  systemCost : SystemCost
  annualSavings : ℤ
  paybackPeriod : ℤ
  deriving DecidableEq, Repr

/-- `CalculationEngine.calculateCosts`: base cost from roof area, tank
capacity (₹0.8 per liter) and, in recharge mode, roof area × 150; savings
from `min(demand, 10 refills of the tank)` at the municipal rate; payback
`round(medium / max(savings, 1))` capped at 20. -/
def calculateCosts (co : Coefficients) (userInput : UserInput)
    (tankCapacity : ℤ) (hasRecharge : Bool) : CostResult :=
  let baseCost := userInput.roofArea * co.costFactors.baseCostPerSqm
  let tankCost := (tankCapacity : ℚ) * 0.8
  let rechargeCost : ℚ := if hasRecharge then userInput.roofArea * 150 else 0
  let totalBaseCost := baseCost + tankCost + rechargeCost
  let systemCost : SystemCost :=
    { low := jsRound (totalBaseCost * co.costFactors.budgetMultipliers.Low),
      medium := jsRound (totalBaseCost * co.costFactors.budgetMultipliers.Medium),
      high := jsRound (totalBaseCost * co.costFactors.budgetMultipliers.High) }
  let householdDemand := calculateHouseholdDemand co userInput
  let municipalRate := co.waterRates.municipalRate
  let maxSavableWater := min ((householdDemand : ℚ)) ((tankCapacity : ℚ) * 10)
  let annualSavings := jsRound (maxSavableWater * municipalRate)
  let paybackPeriod :=
    jsRound ((systemCost.medium : ℚ) / ((max annualSavings 1 : ℤ) : ℚ))
  { systemCost := systemCost,
    annualSavings := annualSavings,
    paybackPeriod := min paybackPeriod 20 }

/-- Rainfall-adequacy branch of the feasibility scoring: points, appended
recommendations, appended warnings. -/
def rainfallBranch (annualRainfall : ℚ) : ℤ × List (List Char) × List (List Char) :=
  if annualRainfall > 1000 then
    (25, [("Excellent rainfall - consider larger storage capacity").data], [])
  else if annualRainfall > 600 then
    (15, [("Good rainfall - standard system recommended").data], [])
  else
    (5, [], [("Low rainfall area - consider supplementary water sources").data])

/-- Name of a roof type as interpolated into the roof recommendation. -/
def roofTypeName : RoofType → List Char
  | .RCC => ("RCC").data
  | .GI => ("GI").data
  | .Asbestos => ("Asbestos").data
  | .Tiles => ("Tiles").data

/-- Roof-suitability branch of the feasibility scoring. -/
def roofBranch (roofType : RoofType) : ℤ × List (List Char) × List (List Char) :=
  if roofType = .RCC ∨ roofType = .GI then
    (20, [roofTypeName roofType ++ (" roof is excellent for rainwater harvesting").data], [])
  else if roofType = .Tiles then
    (15, [("Clay/concrete tiles are suitable with proper first flush diverter").data], [])
  else
    (10, [], [("Asbestos roofs require regular cleaning and filtration").data])

/-- Soil-conditions branch of the feasibility scoring. -/
def soilBranch (soilType : SoilType) : ℤ × List (List Char) × List (List Char) :=
  if soilType = .Sandy then
    (15, [("Sandy soil is ideal for groundwater recharge").data], [])
  else if soilType = .Loamy then
    (10, [("Loamy soil provides good infiltration for recharge").data], [])
  else
    (5, [("Clayey soil requires larger recharge structures").data], [])

/-- Groundwater-depth branch of the feasibility scoring. -/
def groundwaterBranch (depth : ℚ) : ℤ × List (List Char) × List (List Char) :=
  if depth > 3 ∧ depth < 30 then
    (15, [("Optimal groundwater depth for recharge systems").data], [])
  else if depth ≤ 3 then
    (5, [], [("Shallow groundwater - ensure proper drainage to prevent waterlogging").data])
  else
    (10, [], [("Deep groundwater - recharge benefits may take longer to realize").data])

/-- Coverage-analysis branch of the feasibility scoring. -/
def coverageBranch (coverage : ℚ) : ℤ × List (List Char) × List (List Char) :=
  if coverage > 80 then
    (10, [("Excellent coverage - consider selling excess water or larger recharge").data], [])
  else if coverage > 50 then
    (7, [("Good coverage - system will significantly reduce water bills").data], [])
  else
    (3, [("Partial coverage - combine with water conservation measures").data], [])

/-- Result of `calculateFeasibility`. -/
structure FeasibilityResult where
  feasibilityScore : ℤ
  feasibilityLevel : FeasibilityLevel
  recommendations : List (List Char)
  warnings : List (List Char)

/-- `CalculationEngine.calculateFeasibility`: base score 50 plus the five
scoring branches; fixed-rule warnings for bird nesting, industrial
environment and monsoon concentration; standard recommendations; level from
the raw score (High at 80, Medium at 60, else Low); returned score capped
at 100. -/
def calculateFeasibility (userInput : UserInput) (cityData : CityData)
    (rainwaterPotential : ℚ) (householdDemand : ℚ) : FeasibilityResult :=
  let rain := rainfallBranch cityData.annualRainfall
  let roof := roofBranch userInput.roofType
  let soil := soilBranch userInput.soilType
  let ground := groundwaterBranch userInput.groundwaterDepth
  let coverage := (rainwaterPotential / householdDemand) * 100
  let cover := coverageBranch coverage
  let score : ℤ := 50 + rain.1 + roof.1 + soil.1 + ground.1 + cover.1
  let birdWarnings : List (List Char) :=
    if userInput.birdNesting then
      [("Bird nesting detected - install mesh covers and regular cleaning required").data]
    else []
  let industrialWarnings : List (List Char) :=
    if userInput.environment = .Industrial then
      [("Industrial area - test water quality regularly and use appropriate filtration").data]
    else []
  let monsoonMonths := (cityData.monthlyRainfall.drop 5).take 4
  let monsoonRainfall := monsoonMonths.foldl (· + ·) 0
  let monsoonWarnings : List (List Char) :=
    if monsoonRainfall / cityData.annualRainfall > 0.7 then
      [("High monsoon dependency - 70%+ rainfall in 4 months").data]
    else []
  let standardRecs : List (List Char) :=
    [("Install first flush diverter to improve water quality").data] ++
    (if userInput.purpose = .Domestic then
      [("Consider UV/RO purification for drinking water use").data]
     else []) ++
    (if userInput.hasOpenSpace then
      [("Connect overflow to recharge pit for maximum benefit").data]
     else [])
  let feasibilityLevel : FeasibilityLevel :=
    if score ≥ 80 then .High else if score ≥ 60 then .Medium else .Low
  { feasibilityScore := min 100 score,
    feasibilityLevel := feasibilityLevel,
    recommendations :=
      rain.2.1 ++ roof.2.1 ++ soil.2.1 ++ ground.2.1 ++ cover.2.1 ++ standardRecs,
    warnings :=
      rain.2.2 ++ roof.2.2 ++ ground.2.2 ++ birdWarnings ++
      industrialWarnings ++ monsoonWarnings }

/-- The assembled result record (`CalculationResults` of the shared schema);
the recharge-only fields are `Option`s, `none` standing for an absent field. -/
structure CalculationResults where
  rainwaterPotential : ℤ
  monthlyPotential : List ℤ
  householdDemand : ℤ
  coveragePercentage : ℤ
  firstFlush : ℤ
  tankCapacity : ℤ
  tankDimensions : TankDimensions
  rechargeVolume : Option ℤ
  pitDimensions : Option PitDimensions
  systemCost : SystemCost
  annualSavings : ℤ
  paybackPeriod : ℤ
  feasibilityScore : ℤ
  feasibilityLevel : FeasibilityLevel
  recommendations : List (List Char)
  warnings : List (List Char)

/-- `CalculationEngine.calculate`: resolves city data (throwing when the
resolution yields nothing, possible only for an empty table), runs the
stages in order and assembles the result; recharge fields only in recharge
mode. -/
noncomputable def calculate (cities : List CityData) (co : Coefficients)
    (userInput : UserInput) (calculationType : CalcType) :
    Except (List Char) CalculationResults :=
  match findCityData cities userInput.location userInput.pincode with
  | none =>
    .error (("City data not found for ").data ++ userInput.location ++
      (", ").data ++ userInput.pincode)
  | some cityData =>
    let pot := calculateRainwaterPotential co userInput cityData
    let householdDemand := calculateHouseholdDemand co userInput
    let coveragePercentage :=
      min 100 (jsRound ((pot.annual : ℚ) / (householdDemand : ℚ) * 100))
    let firstFlush := jsRound (userInput.roofArea * 2)
    let tank := calculateStorageTank (pot.annual : ℚ) pot.monthly (householdDemand : ℚ)
    let costs := calculateCosts co userInput tank.capacity (calculationType == .recharge)
    let feas := calculateFeasibility userInput cityData (pot.annual : ℚ) (householdDemand : ℚ)
    let rech : Option RechargeResult :=
      match calculationType with
      | .recharge => some (calculateRechargeSystem co userInput (pot.annual : ℚ) cityData)
      | .rainwater => none
    .ok
      { rainwaterPotential := pot.annual,
        monthlyPotential := pot.monthly,
        householdDemand := householdDemand,
        coveragePercentage := coveragePercentage,
        firstFlush := firstFlush,
        tankCapacity := tank.capacity,
        tankDimensions := tank.dimensions,
        rechargeVolume := rech.map RechargeResult.rechargeVolume,
        pitDimensions := rech.map RechargeResult.pitDimensions,
        systemCost := costs.systemCost,
        annualSavings := costs.annualSavings,
        paybackPeriod := costs.paybackPeriod,
        feasibilityScore := feas.feasibilityScore,
        feasibilityLevel := feas.feasibilityLevel,
        recommendations := feas.recommendations,
        warnings := feas.warnings }

/-! ## Concrete example data, used by example clauses and witnesses -/

/-- A concrete city record whose first month has 500 mm rainfall. -/
def exampleCity : CityData where
  city := ("Delhi").data
  state := ("Delhi").data
  pincode := ("110001").data
  monthlyRainfall := [500, 20, 15, 10, 25, 70, 180, 170, 120, 30, 5, 8]
  annualRainfall := 1153
  groundwaterDepth := 10

/-- A concrete coefficient table with RCC runoff coefficient 0.8. -/
def exampleCoefficients : Coefficients where
  runoffCoefficients := { RCC := 0.8, GI := 0.9, Asbestos := 0.8, Tiles := 0.75 }
  infiltrationRates := { Sandy := 25, Loamy := 12, Clayey := 2.5 }
  costFactors :=
    { baseCostPerSqm := 500,
      budgetMultipliers := { Low := 0.8, Medium := 1, High := 1.3 } }
  waterRates := { municipalRate := 0.02, domesticConsumption := 135 }

/-- A concrete validated user input with a 100 m² RCC roof. -/
def exampleUser : UserInput where
  name := ("Asha").data
  location := ("Delhi").data
  pincode := ("110001").data
  roofArea := 100
  roofType := .RCC
  environment := .Residential
  birdNesting := false
  dwellers := 4
  purpose := .Domestic
  hasOpenSpace := true
  openSpaceArea := some 50
  groundwaterDepth := 10
  soilType := .Loamy
  budget := .Medium

/-! ## Helper lemmas -/

/-- `Math.round` of a nonnegative number is nonnegative. -/
theorem jsRound_nonneg {q : ℚ} (h : 0 ≤ q) : 0 ≤ jsRound q := by
  unfold jsRound
  exact Int.le_floor.mpr (by norm_num; linarith)

/-- `Math.round` does not go below an integer lower bound. -/
theorem le_jsRound {z : ℤ} {q : ℚ} (h : (z : ℚ) ≤ q) : z ≤ jsRound q := by
  unfold jsRound
  exact Int.le_floor.mpr (by linarith)

/-- The source's `reduce((sum, month) => sum + month, 0)` is the list sum. -/
theorem foldl_add_eq_sum (l : List ℤ) : l.foldl (· + ·) 0 = l.sum :=
  List.sum_eq_foldl.symm

/--
**C1.** For every input, the returned tank capacity equals
`max(min(round(householdDemand/365 × 35), round(0.2 × annual rainwater
potential), 15000), 2000)`, and is therefore always within [2000, 15000]
liters.
-/
theorem storageTank_capacity_spec (p : ℚ) (m : List ℤ) (hd : ℚ) :
    (calculateStorageTank p m hd).capacity =
      max (min (jsRound (hd / 365 * 35)) (min (jsRound (0.2 * p)) 15000)) 2000 ∧
    2000 ≤ (calculateStorageTank p m hd).capacity ∧
    (calculateStorageTank p m hd).capacity ≤ 15000 := by
  have hc : (0.2 : ℚ) * p = p * 0.2 := mul_comm _ _
  unfold calculateStorageTank
  dsimp only
  rw [hc]
  generalize jsRound (hd / 365 * 35) = a
  generalize jsRound (p * 0.2) = b
  omega

/--
**C4.** For every input and resolved city, each of the 12 monthly potential
values equals `round(roofArea × monthlyRainfall × runoffCoefficient)`, and
the annual potential equals exactly the sum of the monthly values; in
particular 100 m² roof, coefficient 0.8, 500 mm rainfall gives a monthly
potential of 40000 liters.
-/
theorem rainwaterPotential_spec (co : Coefficients) (u : UserInput) (cd : CityData) :
    (calculateRainwaterPotential co u cd).monthly =
      cd.monthlyRainfall.map (fun rainfall =>
        jsRound (u.roofArea * rainfall * co.runoffCoefficients.get u.roofType)) ∧
    (calculateRainwaterPotential co u cd).annual =
      (calculateRainwaterPotential co u cd).monthly.sum ∧
    (calculateRainwaterPotential exampleCoefficients exampleUser exampleCity).monthly.head? =
      some 40000 := by
  refine ⟨rfl, foldl_add_eq_sum _, ?_⟩
  norm_num [calculateRainwaterPotential, exampleCoefficients, exampleUser, exampleCity,
    RunoffCoefficients.get, jsRound]

/-- Point range of the rainfall-adequacy branch. -/
theorem rainfallBranch_score (a : ℚ) :
    5 ≤ (rainfallBranch a).1 ∧ (rainfallBranch a).1 ≤ 25 := by
  unfold rainfallBranch
  split_ifs <;> simp

/-- Point range of the roof-suitability branch. -/
theorem roofBranch_score (r : RoofType) :
    10 ≤ (roofBranch r).1 ∧ (roofBranch r).1 ≤ 20 := by
  unfold roofBranch
  split_ifs <;> simp

/-- Point range of the soil-conditions branch. -/
theorem soilBranch_score (s : SoilType) :
    5 ≤ (soilBranch s).1 ∧ (soilBranch s).1 ≤ 15 := by
  unfold soilBranch
  split_ifs <;> simp

/-- Point range of the groundwater-depth branch. -/
theorem groundwaterBranch_score (d : ℚ) :
    5 ≤ (groundwaterBranch d).1 ∧ (groundwaterBranch d).1 ≤ 15 := by
  unfold groundwaterBranch
  split_ifs <;> simp

/-- Point range of the coverage-analysis branch. -/
theorem coverageBranch_score (c : ℚ) :
    3 ≤ (coverageBranch c).1 ∧ (coverageBranch c).1 ≤ 10 := by
  unfold coverageBranch
  split_ifs <;> simp

/-- The raw feasibility score is `50` plus the five branch contributions,
hence between 78 and 135; the returned score caps it at 100 and the level
is read off the raw score. -/
theorem calculateFeasibility_core (u : UserInput) (cd : CityData) (p hd : ℚ) :
    ∃ raw : ℤ, 78 ≤ raw ∧ raw ≤ 135 ∧
      (calculateFeasibility u cd p hd).feasibilityScore = min 100 raw ∧
      (calculateFeasibility u cd p hd).feasibilityLevel =
        (if raw ≥ 80 then .High else if raw ≥ 60 then .Medium else .Low) := by
  refine ⟨50 + (rainfallBranch cd.annualRainfall).1 + (roofBranch u.roofType).1 +
    (soilBranch u.soilType).1 + (groundwaterBranch u.groundwaterDepth).1 +
    (coverageBranch (p / hd * 100)).1, ?_, ?_, rfl, rfl⟩
  · have h1 := (rainfallBranch_score cd.annualRainfall).1
    have h2 := (roofBranch_score u.roofType).1
    have h3 := (soilBranch_score u.soilType).1
    have h4 := (groundwaterBranch_score u.groundwaterDepth).1
    have h5 := (coverageBranch_score (p / hd * 100)).1
    omega
  · have h1 := (rainfallBranch_score cd.annualRainfall).2
    have h2 := (roofBranch_score u.roofType).2
    have h3 := (soilBranch_score u.soilType).2
    have h4 := (groundwaterBranch_score u.groundwaterDepth).2
    have h5 := (coverageBranch_score (p / hd * 100)).2
    omega

/--
**C3.** For every input, the feasibility score in the result is within
[0, 100], and the feasibility level is High exactly when the score is ≥ 80,
Medium exactly when it is ≥ 60 and < 80, and Low otherwise.
-/
theorem feasibility_score_level_spec (u : UserInput) (cd : CityData) (p hd : ℚ) :
    0 ≤ (calculateFeasibility u cd p hd).feasibilityScore ∧
    (calculateFeasibility u cd p hd).feasibilityScore ≤ 100 ∧
    ((calculateFeasibility u cd p hd).feasibilityLevel = .High ↔
      80 ≤ (calculateFeasibility u cd p hd).feasibilityScore) ∧
    ((calculateFeasibility u cd p hd).feasibilityLevel = .Medium ↔
      (60 ≤ (calculateFeasibility u cd p hd).feasibilityScore ∧
       (calculateFeasibility u cd p hd).feasibilityScore < 80)) ∧
    ((calculateFeasibility u cd p hd).feasibilityLevel = .Low ↔
      (calculateFeasibility u cd p hd).feasibilityScore < 60) := by
  obtain ⟨raw, h1, h2, hs, hl⟩ := calculateFeasibility_core u cd p hd
  rw [hs, hl]
  refine ⟨by omega, by omega, ?_, ?_, ?_⟩ <;> split_ifs with hA hB <;> simp <;> omega

/--
**C10.** For every input, the feasibility score is at least 78 (base 50 plus
minimum branch contributions 5 + 10 + 5 + 5 + 3), so the returned
feasibility level is never Low.
-/
theorem feasibility_score_floor (u : UserInput) (cd : CityData) (p hd : ℚ) :
    78 ≤ (calculateFeasibility u cd p hd).feasibilityScore ∧
    (calculateFeasibility u cd p hd).feasibilityLevel ≠ .Low := by
  obtain ⟨raw, h1, h2, hs, hl⟩ := calculateFeasibility_core u cd p hd
  rw [hs, hl]
  refine ⟨by omega, ?_⟩
  split_ifs with hA hB
  · simp
  · simp
  · omega

/-- City resolution yields a record exactly when the table is non-empty. -/
theorem findCityData_isSome_iff (cities : List CityData) (l p : List Char) :
    (findCityData cities l p).isSome = true ↔ cities ≠ [] := by
  unfold findCityData
  cases h1 : cities.find? (pincodeMatches p) with
  | some c =>
    simp only [Option.isSome_some, true_iff]
    exact List.ne_nil_of_mem (List.mem_of_find?_eq_some h1)
  | none =>
    cases h2 : cities.find? (nameMatches l) with
    | some c =>
      simp only [Option.isSome_some, true_iff]
      exact List.ne_nil_of_mem (List.mem_of_find?_eq_some h2)
    | none =>
      cases h3 : cities.find? isDelhiCity with
      | some c =>
        simp only [Option.isSome_some, true_iff]
        exact List.ne_nil_of_mem (List.mem_of_find?_eq_some h3)
      | none => cases cities <;> simp

/-- Whatever city resolution returns comes from the table. -/
theorem findCityData_mem {cities : List CityData} {l p : List Char} {c : CityData}
    (h : findCityData cities l p = some c) : c ∈ cities := by
  unfold findCityData at h
  cases h1 : cities.find? (pincodeMatches p) with
  | some d =>
    rw [h1] at h
    cases h
    exact List.mem_of_find?_eq_some h1
  | none =>
    rw [h1] at h
    cases h2 : cities.find? (nameMatches l) with
    | some d =>
      rw [h2] at h
      cases h
      exact List.mem_of_find?_eq_some h2
    | none =>
      rw [h2] at h
      cases h3 : cities.find? isDelhiCity with
      | some d =>
        rw [h3] at h
        cases h
        exact List.mem_of_find?_eq_some h3
      | none =>
        rw [h3] at h
        dsimp only at h
        exact List.mem_of_mem_head? (by simp [h])

/--
**C9.** City resolution returns a record whenever the city table is
non-empty, selecting first by pincode prefix, else by fuzzy name match,
else the Delhi fallback, else the first table entry; `calculate` throws
exactly when no city record is resolvable (empty table), and no other path
fails.
-/
theorem city_resolution_spec (cities : List CityData) (co : Coefficients)
    (u : UserInput) (m : CalcType) :
    ((findCityData cities u.location u.pincode).isSome = true ↔ cities ≠ []) ∧
    ((∃ r, calculate cities co u m = .ok r) ↔ cities ≠ []) ∧
    ((∃ e, calculate cities co u m = .error e) ↔ cities = []) ∧
    (∀ c, cities.find? (pincodeMatches u.pincode) = some c →
      findCityData cities u.location u.pincode = some c) ∧
    (cities.find? (pincodeMatches u.pincode) = none →
      (∀ c, cities.find? (nameMatches u.location) = some c →
        findCityData cities u.location u.pincode = some c) ∧
      (cities.find? (nameMatches u.location) = none →
        (∀ c, cities.find? isDelhiCity = some c →
          findCityData cities u.location u.pincode = some c) ∧
        (cities.find? isDelhiCity = none →
          findCityData cities u.location u.pincode = cities.head?))) := by
  refine ⟨findCityData_isSome_iff cities u.location u.pincode, ?_, ?_, ?_, ?_⟩
  · rw [← findCityData_isSome_iff cities u.location u.pincode]
    unfold calculate
    cases h : findCityData cities u.location u.pincode <;> simp [h]
  · rw [show (cities = []) ↔ ¬cities ≠ [] by tauto,
      ← findCityData_isSome_iff cities u.location u.pincode]
    unfold calculate
    cases h : findCityData cities u.location u.pincode <;> simp [h]
  · intro c h1
    unfold findCityData
    rw [h1]
  · intro h1
    refine ⟨?_, ?_⟩
    · intro c h2
      unfold findCityData
      rw [h1, h2]
    · intro h2
      refine ⟨?_, ?_⟩
      · intro c h3
        unfold findCityData
        rw [h1, h2, h3]
      · intro h3
        unfold findCityData
        rw [h1, h2, h3]

/--
**C7.** For every input, `calculate` in recharge mode returns a result whose
`rechargeVolume` and `pitDimensions` fields are present, and in rainwater
mode a result where both fields are absent.
-/
theorem recharge_fields_spec (cities : List CityData) (co : Coefficients)
    (u : UserInput) :
    (∀ r, calculate cities co u .recharge = .ok r →
      r.rechargeVolume.isSome = true ∧ r.pitDimensions.isSome = true) ∧
    (∀ r, calculate cities co u .rainwater = .ok r →
      r.rechargeVolume = none ∧ r.pitDimensions = none) := by
  constructor <;>
    · intro r hr
      unfold calculate at hr
      cases h : findCityData cities u.location u.pincode with
      | none =>
        rw [h] at hr
        exact absurd hr (by simp)
      | some cd =>
        rw [h] at hr
        simp only [Except.ok.injEq] at hr
        subst hr
        simp

/-- `sqrt(V·4/(π·h))` at `h = 2` is the diameter `2·sqrt(V/(π·h))` solving
`volume = π·r²·h`. -/
theorem sqrt_four_div_pi_two (V : ℝ) :
    Real.sqrt (V * 4 / (Real.pi * 2)) = 2 * Real.sqrt (V / (Real.pi * 2)) := by
  rw [show V * 4 / (Real.pi * 2) = 4 * (V / (Real.pi * 2)) by ring,
    Real.sqrt_mul (by norm_num : (0:ℝ) ≤ 4),
    show Real.sqrt 4 = 2 by
      rw [show (4:ℝ) = 2 ^ 2 by norm_num]
      exact Real.sqrt_sq (by norm_num)]

/--
**C2, counterexample.** At zero potential and zero demand the returned
capacity is 2000 liters (the floor), but the returned diameter is 0: it was
computed from the un-floored capacity 0, not from the returned capacity, so
the diameter is not the cylinder solution for the capacity field of the
same result.
-/
theorem storageTank_diameter_counterexample :
    (calculateStorageTank 0 [] 0).capacity = 2000 ∧
    (calculateStorageTank 0 [] 0).dimensions.diameter ≠
      toFixed1 (Real.sqrt (((calculateStorageTank 0 [] 0).capacity : ℝ) / 1000 * 4 /
        (Real.pi * 2))) := by
  have hcap : (calculateStorageTank 0 [] 0).capacity = 2000 := by
    norm_num [calculateStorageTank, jsRound]
  have hdiam : (calculateStorageTank 0 [] 0).dimensions.diameter = 0 := by
    norm_num [calculateStorageTank, jsRound, toFixed1]
  refine ⟨hcap, ?_⟩
  rw [hdiam, hcap]
  have harg : ((2000 : ℤ) : ℝ) / 1000 * 4 / (Real.pi * 2) = 4 / Real.pi := by
    have hpi := Real.pi_ne_zero
    push_cast
    field_simp
    ring
  rw [harg]
  have h1 : (1:ℝ) ≤ Real.sqrt (4 / Real.pi) := by
    refine Real.one_le_sqrt.mpr ?_
    rw [le_div_iff₀ Real.pi_pos]
    linarith [Real.pi_le_four]
  have h2 : (10:ℤ) ≤ ⌊Real.sqrt (4 / Real.pi) * 10 + 1/2⌋ := by
    refine Int.le_floor.mpr ?_
    push_cast
    nlinarith
  have h3 : (10:ℝ) ≤ ((⌊Real.sqrt (4 / Real.pi) * 10 + 1/2⌋ : ℤ) : ℝ) := by
    exact_mod_cast h2
  unfold toFixed1
  intro h
  rw [eq_comm, div_eq_iff (by norm_num : (10:ℝ) ≠ 0)] at h
  rw [h] at h3
  norm_num at h3

/--
**C2, amended.** For every input, the returned tank dimensions are a
cylinder of fixed height 2 m whose diameter is `2·sqrt(V/(π·h))` rounded to
one decimal, where `V` is the *pre-floor* capacity
`min(round(demand/365·35), round(0.2·potential), 15000)` in m³ — not the
returned (2000-floored) capacity field.
-/
theorem storageTank_dimensions_formula (p : ℚ) (m : List ℤ) (hd : ℚ) :
    (calculateStorageTank p m hd).dimensions.height = 2 ∧
    (calculateStorageTank p m hd).dimensions.diameter =
      toFixed1 (2 * Real.sqrt
        ((((min (min (jsRound (hd / 365 * 35)) (jsRound (p * 0.2))) 15000 : ℤ) : ℝ) / 1000) /
          (Real.pi * 2))) := by
  refine ⟨rfl, ?_⟩
  unfold calculateStorageTank
  dsimp only
  exact congrArg toFixed1 (sqrt_four_div_pi_two _)

/-- The executable `ratCeilSqrt` computes `Math.ceil(Math.sqrt(q))`. -/
theorem ratCeilSqrt_eq {q : ℚ} (hq : 0 ≤ q) :
    ratCeilSqrt q = ⌈Real.sqrt ((q : ℝ))⌉ := by
  rcases eq_or_lt_of_le hq with h0 | hpos
  · rw [ratCeilSqrt, if_pos (le_of_eq h0.symm), ← h0]
    simp
  · rw [ratCeilSqrt, if_neg (not_le.mpr hpos)]
    dsimp only
    set n : ℕ := Nat.sqrt ⌈q⌉.toNat with hn
    set m : ℕ := ⌈q⌉.toNat with hm
    have hmz : (m : ℤ) = ⌈q⌉ := Int.toNat_of_nonneg (Int.ceil_nonneg hq)
    have hqm : q ≤ (m : ℚ) := by
      have h1 := Int.le_ceil q
      rw [← hmz] at h1
      exact_mod_cast h1
    have hsm : n * n ≤ m := Nat.sqrt_le m
    have hmlt : m < (n + 1) * (n + 1) := Nat.lt_succ_sqrt m
    split_ifs with hle
    · symm
      rw [Int.ceil_eq_iff]
      refine ⟨?_, ?_⟩
      · rcases Nat.eq_zero_or_pos n with h0s | hposn
        · rw [h0s]
          push_cast
          have := Real.sqrt_nonneg ((q : ℝ))
          linarith
        · have hlt : ((n : ℚ) - 1) ^ 2 < q := by
            by_contra hcon
            push_neg at hcon
            have hcl : (⌈q⌉ : ℤ) ≤ ((n : ℤ) - 1) ^ 2 := by
              refine Int.ceil_le.mpr ?_
              push_cast
              linarith
            have hs2 : (n : ℤ) ^ 2 ≤ (m : ℤ) := by
              have h3 : (n * n : ℕ) ≤ m := hsm
              have h4 : ((n : ℤ)) * (n : ℤ) ≤ (m : ℤ) := by exact_mod_cast h3
              nlinarith [h4]
            rw [hmz] at hs2
            have hn1 : (1 : ℤ) ≤ (n : ℤ) := by exact_mod_cast hposn
            nlinarith [hs2, hcl, hn1]
          have hsub : (0:ℝ) ≤ (n : ℝ) - 1 := by
            have : (1:ℝ) ≤ (n : ℝ) := by exact_mod_cast hposn
            linarith
          have hltR : ((n : ℝ) - 1) ^ 2 < (q : ℝ) := by exact_mod_cast hlt
          have := (Real.lt_sqrt hsub).mpr hltR
          push_cast
          linarith
      · have hq2 : (q : ℝ) ≤ ((n : ℝ)) ^ 2 := by exact_mod_cast hle
        calc Real.sqrt ((q : ℝ)) ≤ Real.sqrt (((n : ℝ)) ^ 2) := Real.sqrt_le_sqrt hq2
          _ = (n : ℝ) := Real.sqrt_sq (by positivity)
    · push_neg at hle
      symm
      rw [Int.ceil_eq_iff]
      refine ⟨?_, ?_⟩
      · have hleR : ((n : ℝ)) ^ 2 < (q : ℝ) := by exact_mod_cast hle
        have := (Real.lt_sqrt (by positivity : (0:ℝ) ≤ (n : ℝ))).mpr hleR
        push_cast
        linarith
      · have hm1 : (m : ℚ) < ((n : ℚ) + 1) ^ 2 := by
          have h5 : (m : ℚ) < ((n + 1 : ℕ) : ℚ) ^ 2 := by
            exact_mod_cast (by nlinarith [hmlt] : m < (n + 1) ^ 2)
          push_cast at h5
          exact h5
        have hqR : (q : ℝ) ≤ ((n : ℝ) + 1) ^ 2 := by
          have h2 : q ≤ ((n : ℚ) + 1) ^ 2 := hqm.trans hm1.le
          exact_mod_cast h2
        have h6 : Real.sqrt ((q : ℝ)) ≤ (n : ℝ) + 1 := by
          calc Real.sqrt ((q : ℝ)) ≤ Real.sqrt (((n : ℝ) + 1) ^ 2) := Real.sqrt_le_sqrt hqR
            _ = (n : ℝ) + 1 := Real.sqrt_sq (by positivity)
        push_cast
        linarith

/--
**C8.** For every input in recharge mode, the recharge volume is
`round((potential/1000) × soil factor)` (0.7 Clayey, 0.8 Loamy, 0.9 Sandy);
the pit side is the larger of the infiltration-derived minimum area and the
storage-based area (`rechargeVolume × 1.2 ÷ depth`), square-rooted,
ceiling-rounded and floored at 3 m; and the pit depth is
`clamp(groundwaterDepth × 0.3, 2, 4)` meters.
-/
theorem rechargeSystem_spec (co : Coefficients) (u : UserInput) (p : ℚ)
    (cd : CityData) :
    (u.soilType = .Clayey →
      (calculateRechargeSystem co u p cd).rechargeVolume = jsRound (p / 1000 * 0.7)) ∧
    (u.soilType = .Loamy →
      (calculateRechargeSystem co u p cd).rechargeVolume = jsRound (p / 1000 * 0.8)) ∧
    (u.soilType = .Sandy →
      (calculateRechargeSystem co u p cd).rechargeVolume = jsRound (p / 1000 * 0.9)) ∧
    (calculateRechargeSystem co u p cd).pitDimensions.depth =
      min 4 (max 2 (u.groundwaterDepth * 0.3)) ∧
    (calculateRechargeSystem co u p cd).pitDimensions.length =
      max ((⌈Real.sqrt (((max
        (max 9 (p / 120 / (co.infiltrationRates.get u.soilType / 1000 * 8 * 1000)))
        (((calculateRechargeSystem co u p cd).rechargeVolume : ℚ) * 1.2 /
          (min 4 (max 2 (u.groundwaterDepth * 0.3)))) : ℚ) : ℝ))⌉ : ℚ)) 3 ∧
    (calculateRechargeSystem co u p cd).pitDimensions.width =
      (calculateRechargeSystem co u p cd).pitDimensions.length := by
  refine ⟨?_, ?_, ?_, rfl, ?_, rfl⟩
  · intro h
    simp only [calculateRechargeSystem, h]
  · intro h
    simp only [calculateRechargeSystem, h]
  · intro h
    simp only [calculateRechargeSystem, h]
  · have h9 : (0 : ℚ) ≤ max
        (max 9 (p / 120 / (co.infiltrationRates.get u.soilType / 1000 * 8 * 1000)))
        (((calculateRechargeSystem co u p cd).rechargeVolume : ℚ) * 1.2 /
          (min 4 (max 2 (u.groundwaterDepth * 0.3)))) :=
      le_trans (by norm_num) (le_trans (le_max_left 9 _) (le_max_left _ _))
    rw [← ratCeilSqrt_eq h9]
    rfl

/--
**C6.** For every input, annual savings equals
`round(min(householdDemand, 10 × tankCapacity) × municipalRate)`, and the
payback period equals `round(medium-tier cost ÷ max(annualSavings, 1))`
capped at 20, hence lies within [0, 20] (for nonnegative roof area, cost
factors and tank capacity).
-/
theorem costs_spec (co : Coefficients) (u : UserInput) (tankCapacity : ℤ)
    (hasRecharge : Bool)
    (harea : 0 ≤ u.roofArea)
    (hbase : 0 ≤ co.costFactors.baseCostPerSqm)
    (hmed : 0 ≤ co.costFactors.budgetMultipliers.Medium)
    (htank : 0 ≤ tankCapacity) :
    (calculateCosts co u tankCapacity hasRecharge).annualSavings =
      jsRound (min ((calculateHouseholdDemand co u : ℚ)) ((tankCapacity : ℚ) * 10) *
        co.waterRates.municipalRate) ∧
    (calculateCosts co u tankCapacity hasRecharge).paybackPeriod =
      min (jsRound
        (((calculateCosts co u tankCapacity hasRecharge).systemCost.medium : ℚ) /
          ((max (calculateCosts co u tankCapacity hasRecharge).annualSavings 1 : ℤ) : ℚ))) 20 ∧
    0 ≤ (calculateCosts co u tankCapacity hasRecharge).paybackPeriod ∧
    (calculateCosts co u tankCapacity hasRecharge).paybackPeriod ≤ 20 := by
  have htb : (0:ℚ) ≤ u.roofArea * co.costFactors.baseCostPerSqm +
      (tankCapacity : ℚ) * 0.8 + (if hasRecharge then u.roofArea * 150 else 0) := by
    have h1 : (0:ℚ) ≤ u.roofArea * co.costFactors.baseCostPerSqm :=
      mul_nonneg harea hbase
    have h2 : (0:ℚ) ≤ (tankCapacity : ℚ) * 0.8 :=
      mul_nonneg (by exact_mod_cast htank) (by norm_num)
    have h3 : (0:ℚ) ≤ (if hasRecharge then u.roofArea * 150 else 0) := by
      split_ifs
      · exact mul_nonneg harea (by norm_num)
      · exact le_refl 0
    linarith
  have hmed0 : 0 ≤ (calculateCosts co u tankCapacity hasRecharge).systemCost.medium := by
    unfold calculateCosts
    dsimp only
    exact jsRound_nonneg (mul_nonneg htb hmed)
  refine ⟨rfl, rfl, ?_, ?_⟩
  · unfold calculateCosts
    unfold calculateCosts at hmed0
    dsimp only at hmed0 ⊢
    have hsav : (0:ℚ) < ((max (jsRound
        (min ((calculateHouseholdDemand co u : ℚ)) ((tankCapacity : ℚ) * 10) *
          co.waterRates.municipalRate)) 1 : ℤ) : ℚ) := by
      have : (1:ℤ) ≤ max (jsRound
          (min ((calculateHouseholdDemand co u : ℚ)) ((tankCapacity : ℚ) * 10) *
            co.waterRates.municipalRate)) 1 := le_max_right _ _
      exact_mod_cast lt_of_lt_of_le Int.zero_lt_one this
    have h0 : 0 ≤ jsRound ((((jsRound ((u.roofArea * co.costFactors.baseCostPerSqm +
        (tankCapacity : ℚ) * 0.8 + (if hasRecharge then u.roofArea * 150 else 0)) *
          co.costFactors.budgetMultipliers.Medium)) : ℤ) : ℚ) /
        ((max (jsRound
          (min ((calculateHouseholdDemand co u : ℚ)) ((tankCapacity : ℚ) * 10) *
            co.waterRates.municipalRate)) 1 : ℤ) : ℚ)) :=
      jsRound_nonneg (div_nonneg (by exact_mod_cast hmed0) hsav.le)
    omega
  · unfold calculateCosts
    dsimp only
    omega

/--
**C5.** For every input with at least one dweller (and a per-person daily
consumption of at least 1 liter, nonnegative roof area, runoff coefficient
and rainfall), the coverage percentage of the result equals
`min(100, round(100 × annual potential ÷ household demand))` and is always
within [0, 100].
-/
theorem coverage_spec (cities : List CityData) (co : Coefficients)
    (u : UserInput) (m : CalcType)
    (hne : cities ≠ [])
    (hdw : 1 ≤ u.dwellers)
    (hcons : 1 ≤ co.waterRates.domesticConsumption)
    (harea : 0 ≤ u.roofArea)
    (hrun : 0 ≤ co.runoffCoefficients.get u.roofType)
    (hrain : ∀ c ∈ cities, ∀ x ∈ c.monthlyRainfall, 0 ≤ x) :
    ∃ res, calculate cities co u m = .ok res ∧
      res.coveragePercentage =
        min 100 (jsRound (100 * (res.rainwaterPotential : ℚ) / (res.householdDemand : ℚ))) ∧
      0 ≤ res.coveragePercentage ∧ res.coveragePercentage ≤ 100 := by
  obtain ⟨cd, hcd⟩ : ∃ cd, findCityData cities u.location u.pincode = some cd :=
    Option.isSome_iff_exists.mp
      ((findCityData_isSome_iff cities u.location u.pincode).mpr hne)
  have hcdmem := findCityData_mem hcd
  have hdemand : (365:ℤ) ≤ calculateHouseholdDemand co u := by
    unfold calculateHouseholdDemand
    dsimp only
    refine le_jsRound ?_
    have hadj : (1:ℚ) ≤ (match u.purpose with
        | .Domestic => (1:ℚ) | .Irrigation => 1.5 | .Industrial => 2) := by
      cases u.purpose <;> norm_num
    have h1 : (1:ℚ) ≤ u.dwellers * co.waterRates.domesticConsumption := by
      nlinarith [mul_nonneg (sub_nonneg.mpr hdw) (sub_nonneg.mpr hcons)]
    have h2 : (365:ℚ) ≤ u.dwellers * co.waterRates.domesticConsumption * 365 := by
      linarith
    calc ((365:ℤ) : ℚ) = 365 * 1 := by norm_num
      _ ≤ u.dwellers * co.waterRates.domesticConsumption * 365 *
          (match u.purpose with
            | .Domestic => (1:ℚ) | .Irrigation => 1.5 | .Industrial => 2) :=
        mul_le_mul h2 hadj (by norm_num) (by linarith)
  have hpot : 0 ≤ (calculateRainwaterPotential co u cd).annual := by
    unfold calculateRainwaterPotential
    dsimp only
    rw [foldl_add_eq_sum]
    refine List.sum_nonneg ?_
    intro x hx
    simp only [List.mem_map] at hx
    obtain ⟨r, hr, rfl⟩ := hx
    exact jsRound_nonneg (mul_nonneg (mul_nonneg harea (hrain cd hcdmem r hr)) hrun)
  have hratio : (0:ℚ) ≤ ((calculateRainwaterPotential co u cd).annual : ℚ) /
      ((calculateHouseholdDemand co u : ℤ) : ℚ) * 100 := by
    have hp : (0:ℚ) ≤ ((calculateRainwaterPotential co u cd).annual : ℚ) := by
      exact_mod_cast hpot
    have hd : (0:ℚ) ≤ ((calculateHouseholdDemand co u : ℤ) : ℚ) := by
      have : (0:ℤ) ≤ calculateHouseholdDemand co u := by omega
      exact_mod_cast this
    exact mul_nonneg (div_nonneg hp hd) (by norm_num)
  unfold calculate
  rw [hcd]
  dsimp only
  refine ⟨_, rfl, ?_, ?_, ?_⟩
  · have harg : ((calculateRainwaterPotential co u cd).annual : ℚ) /
        ((calculateHouseholdDemand co u : ℤ) : ℚ) * 100 =
        100 * ((calculateRainwaterPotential co u cd).annual : ℚ) /
          ((calculateHouseholdDemand co u : ℤ) : ℚ) := by
      ring
    rw [harg]
  · have h0 : 0 ≤ jsRound (((calculateRainwaterPotential co u cd).annual : ℚ) /
        ((calculateHouseholdDemand co u : ℤ) : ℚ) * 100) := jsRound_nonneg hratio
    dsimp only
    omega
  · dsimp only
    exact min_le_left _ _

/-- Witness for **C6** at a concrete input: every hypothesis holds and the
conclusion follows by `costs_spec` itself. -/
theorem costs_spec_witness :
    (0 ≤ exampleUser.roofArea) ∧
    (0 ≤ exampleCoefficients.costFactors.baseCostPerSqm) ∧
    (0 ≤ exampleCoefficients.costFactors.budgetMultipliers.Medium) ∧
    (0 ≤ (5000:ℤ)) ∧
    ((calculateCosts exampleCoefficients exampleUser 5000 true).annualSavings =
      jsRound (min ((calculateHouseholdDemand exampleCoefficients exampleUser : ℚ))
        (((5000:ℤ) : ℚ) * 10) * exampleCoefficients.waterRates.municipalRate) ∧
    (calculateCosts exampleCoefficients exampleUser 5000 true).paybackPeriod =
      min (jsRound
        (((calculateCosts exampleCoefficients exampleUser 5000 true).systemCost.medium : ℚ) /
          ((max (calculateCosts exampleCoefficients exampleUser 5000 true).annualSavings 1 : ℤ) : ℚ))) 20 ∧
    0 ≤ (calculateCosts exampleCoefficients exampleUser 5000 true).paybackPeriod ∧
    (calculateCosts exampleCoefficients exampleUser 5000 true).paybackPeriod ≤ 20) :=
  ⟨by norm_num [exampleUser], by norm_num [exampleCoefficients],
    by norm_num [exampleCoefficients], by norm_num,
    costs_spec exampleCoefficients exampleUser 5000 true
      (by norm_num [exampleUser]) (by norm_num [exampleCoefficients])
      (by norm_num [exampleCoefficients]) (by norm_num)⟩

/-- Witness for **C5** at a concrete input: every hypothesis holds and the
conclusion follows by `coverage_spec` itself. -/
theorem coverage_spec_witness :
    ([exampleCity] ≠ ([] : List CityData)) ∧
    (1 ≤ exampleUser.dwellers) ∧
    (1 ≤ exampleCoefficients.waterRates.domesticConsumption) ∧
    (0 ≤ exampleUser.roofArea) ∧
    (0 ≤ exampleCoefficients.runoffCoefficients.get exampleUser.roofType) ∧
    (∀ c ∈ [exampleCity], ∀ x ∈ c.monthlyRainfall, 0 ≤ x) ∧
    (∃ res, calculate [exampleCity] exampleCoefficients exampleUser .rainwater = .ok res ∧
      res.coveragePercentage =
        min 100 (jsRound (100 * (res.rainwaterPotential : ℚ) / (res.householdDemand : ℚ))) ∧
      0 ≤ res.coveragePercentage ∧ res.coveragePercentage ≤ 100) := by
  have hrain : ∀ c ∈ [exampleCity], ∀ x ∈ c.monthlyRainfall, 0 ≤ x := by
    intro c hc x hx
    simp only [List.mem_singleton] at hc
    subst hc
    simp only [exampleCity, List.mem_cons, List.not_mem_nil, or_false] at hx
    rcases hx with rfl | rfl | rfl | rfl | rfl | rfl | rfl | rfl | rfl | rfl | rfl | rfl <;>
      norm_num
  exact ⟨by simp, by norm_num [exampleUser], by norm_num [exampleCoefficients],
    by norm_num [exampleUser],
    by norm_num [exampleCoefficients, exampleUser, RunoffCoefficients.get], hrain,
    coverage_spec [exampleCity] exampleCoefficients exampleUser .rainwater
      (by simp) (by norm_num [exampleUser]) (by norm_num [exampleCoefficients])
      (by norm_num [exampleUser])
      (by norm_num [exampleCoefficients, exampleUser, RunoffCoefficients.get]) hrain⟩

end RTRWH
